import Mathlib

/-!
Verification development for the HTTP server bootstrap module
(`src/yazi/server.rs`): `ServerConfig`, `Server`, pipeline assembly
(`build_app`), address formatting (`address`) and startup (`run`).

External collaborators (the router factory `create_router`, the middleware
functions, the shared `AppState` handle, and the axum/tower layering
mechanism) are modelled as opaque values, following the spec's description
of them as black boxes.  The axum `Router::layer` semantics is modelled
faithfully: each `layer` call wraps the existing pipeline, so the layer
attached last is the outermost one.
-/

/-- Modelled from the spec: `crate::state::AppState` is not under `src/`;
the spec describes it as an opaque, reference-counted, cheaply-duplicable
handle to shared application state. -/
structure AppState where
  handle : Nat
deriving DecidableEq, Repr

/-- Duplicating the reference-counted handle yields a handle to the same
shared state (the model of `Arc::clone` / `self.state.clone()`). -/
def AppState.clone (s : AppState) : AppState := s

/-- A cross-origin allowance as configured on the tower-http cors builder:
either left unconfigured (the restrictive default) or `Any`. -/
inductive AllowSetting
  | notConfigured
  | anyValue
deriving DecidableEq, Repr

/-- The configuration state of a tower-http cors builder. -/
structure CorsPolicy where
  origin : AllowSetting
  methods : AllowSetting
  headers : AllowSetting
deriving DecidableEq, Repr

/-- `CorsLayer::new()`: all allowances start unconfigured. -/
def CorsPolicy.new : CorsPolicy :=
  ⟨AllowSetting.notConfigured, AllowSetting.notConfigured, AllowSetting.notConfigured⟩

/-- `.allow_origin(x)` on the cors builder. -/
def CorsPolicy.allow_origin (p : CorsPolicy) (x : AllowSetting) : CorsPolicy :=
  { p with origin := x }

/-- `.allow_methods(x)` on the cors builder. -/
def CorsPolicy.allow_methods (p : CorsPolicy) (x : AllowSetting) : CorsPolicy :=
  { p with methods := x }

/-- `.allow_headers(x)` on the cors builder. -/
def CorsPolicy.allow_headers (p : CorsPolicy) (x : AllowSetting) : CorsPolicy :=
  { p with headers := x }

/-- The fully permissive policy: any origin, any method, any header. -/
def permissiveCors : CorsPolicy :=
  ⟨AllowSetting.anyValue, AllowSetting.anyValue, AllowSetting.anyValue⟩

/-- Modelled from the spec: the middleware functions
(`middleware::logging_middleware`, `middleware::request_id_middleware`) and
the tower-http layers are external collaborators; each attached layer is
identified by which collaborator it wraps the pipeline with. -/
inductive Layer
  | logging
  | requestId
  | trace
  | cors (policy : CorsPolicy)
deriving DecidableEq, Repr

/-- Whether a layer is a cross-origin layer (of any policy). -/
def Layer.isCors : Layer → Bool
  | Layer.cors _ => true
  | _ => false

/-- Modelled from the spec: an axum `Router` value, as this component
observes it: the state handle the router was created from plus the layers
attached around it, kept in attachment order (head = attached first =
innermost). -/
structure App where
  routerState : AppState
  layers : List Layer
deriving DecidableEq, Repr

/-- Modelled from the spec: `crate::routes::create_router` is not under
`src/`; the spec describes it as an opaque router factory parameterized by
the shared application-state handle, with no layers of its own. -/
def create_router (st : AppState) : App := ⟨st, []⟩

/-- `Router::layer`: wraps the current pipeline in one more layer.  In axum
the layer attached last is the outermost, so attachment order (this list)
read back-to-front gives the outermost-to-innermost traversal order. -/
def App.layer (a : App) (l : Layer) : App :=
  { a with layers := a.layers ++ [l] }

/-- The layers in the order a request traverses them: outermost first,
innermost (closest to the router) last. -/
def App.outermostToInnermost (a : App) : List Layer :=
  a.layers.reverse

/-- `ServerConfig`: bind host, bind port (a 16-bit unsigned integer,
modelled as `Nat`; it is only ever formatted, never computed with), and the
cross-origin flag. -/
structure ServerConfig where
  host : String
  port : Nat
  cors_enabled : Bool
deriving DecidableEq, Repr

/-- `ServerConfig::default()`. -/
def ServerConfig.default : ServerConfig :=
  { host := "127.0.0.1", port := 8080, cors_enabled := true }

/-- `Server`: owns a `ServerConfig` and a shared-state handle. -/
structure Server where
  config : ServerConfig
  state : AppState
deriving DecidableEq, Repr

/-- `Server::new(state, config)`. -/
def Server.new (state : AppState) (config : ServerConfig) : Server :=
  { config := config, state := state }

/-- `Server::with_defaults(state)`. -/
def Server.with_defaults (state : AppState) : Server :=
  Server.new state ServerConfig.default

/-- `Server::build_app`: router from a clone of the state handle, then the
logging layer, the request-id layer, the trace layer, and, when
`cors_enabled`, the permissive cors layer attached last. -/
def Server.build_app (s : Server) : App :=
  let app := create_router s.state.clone
  let app := ((app.layer Layer.logging).layer Layer.requestId).layer Layer.trace
  if s.config.cors_enabled then
    let cors := ((CorsPolicy.new.allow_origin AllowSetting.anyValue).allow_methods
      AllowSetting.anyValue).allow_headers AllowSetting.anyValue
    app.layer (Layer.cors cors)
  else
    app

/-- `Server::address`: `format!` of host, a colon, and the decimal port. -/
def Server.address (s : Server) : String :=
  s.config.host ++ ":" ++ Nat.repr s.config.port

/-!
Model of `std::net::SocketAddr: FromStr` (Rust `core::net::parser`), the
library routine `run` invokes via `.parse()`.  It accepts exactly
`ipv4:port` (strict dotted-quad, each octet at most three digits with no
leading zeros) or `[ipv6]:port` (optionally with a `%scope` id); hostnames
and unbracketed IPv6 literals are rejected.  Parsing functions consume from
a character list and return the value plus the unconsumed rest; failure
returns `none` with no input consumed by the caller (backtracking).
-/

/-- `char::to_digit(radix)`: the value of a digit character, if it is a
digit of the given radix. -/
def digitToNat (radix : Nat) (c : Char) : Option Nat :=
  let v : Option Nat :=
    if '0' ≤ c ∧ c ≤ '9' then some (c.toNat - '0'.toNat)
    else if 'a' ≤ c ∧ c ≤ 'f' then some (c.toNat - 'a'.toNat + 10)
    else if 'A' ≤ c ∧ c ≤ 'F' then some (c.toNat - 'A'.toNat + 10)
    else none
  match v with
  | some d => if d < radix then some d else none
  | none => none

/-- The digit-consuming loop of `read_number`: greedily reads digits,
failing on overflow of the target integer type (`bound` = one past its
maximum) or on reading more than `maxDigits` digits.  Returns the
accumulated value, the digit count, and the rest of the input. -/
def readDigitsLoop (radix bound : Nat) (maxDigits : Option Nat) :
    List Char → Nat → Nat → Option (Nat × Nat × List Char)
  | [], acc, cnt => some (acc, cnt, [])
  | c :: cs, acc, cnt =>
    match digitToNat radix c with
    | none => some (acc, cnt, c :: cs)
    | some d =>
      let acc2 := acc * radix + d
      if bound ≤ acc2 then none
      else
        match maxDigits with
        | some m =>
          if m < cnt + 1 then none
          else readDigitsLoop radix bound maxDigits cs acc2 (cnt + 1)
        | none => readDigitsLoop radix bound maxDigits cs acc2 (cnt + 1)

/-- `read_number(radix, max_digits, allow_zero_prefix)`: at least one
digit; a leading zero is rejected (unless allowed) when more than one digit
was read. -/
def readNumber (radix bound : Nat) (maxDigits : Option Nat)
    (allowZeroPrefix : Bool) (cs : List Char) : Option (Nat × List Char) :=
  let hasLeadingZero : Bool := match cs with
    | '0' :: _ => true
    | _ => false
  match readDigitsLoop radix bound maxDigits cs 0 0 with
  | none => none
  | some (v, cnt, rest) =>
    if cnt = 0 then none
    else if !allowZeroPrefix && hasLeadingZero && 1 < cnt then none
    else some (v, rest)

/-- `read_given_char`: consume exactly the given character. -/
def readGivenChar (target : Char) : List Char → Option (List Char)
  | c :: cs => if c = target then some cs else none
  | [] => none

/-- `read_separator(sep, index, inner)`: every group but the first is
preceded by the separator. -/
def readSep {A : Type} (sep : Char) (i : Nat)
    (inner : List Char → Option (A × List Char)) (cs : List Char) :
    Option (A × List Char) :=
  if i = 0 then inner cs
  else
    match readGivenChar sep cs with
    | some cs2 => inner cs2
    | none => none

/-- `read_ipv4_addr`: four octets separated by dots, each a decimal number
below 256 of at most three digits with no leading zero. -/
def readIpv4 (cs : List Char) : Option ((Nat × Nat × Nat × Nat) × List Char) := do
  let (a, cs1) ← readNumber 10 256 (some 3) false cs
  let cs2 ← readGivenChar '.' cs1
  let (b, cs3) ← readNumber 10 256 (some 3) false cs2
  let cs4 ← readGivenChar '.' cs3
  let (c, cs5) ← readNumber 10 256 (some 3) false cs4
  let cs6 ← readGivenChar '.' cs5
  let (d, cs7) ← readNumber 10 256 (some 3) false cs6
  return ((a, b, c, d), cs7)

/-- The group loop of `read_ipv6_addr::read_groups`, on the number of slots
still free (`remaining`); `i` is the index of the next group, `limit` the
total number of slots.  At each position with at least two slots free, an
embedded trailing IPv4 address is tried first and, when present, fills two
groups and ends the loop.  Returns the groups read, whether an embedded
IPv4 address ended them, and the rest of the input. -/
def readGroupsAux (limit : Nat) : Nat → Nat → List Char → (List Nat × Bool × List Char)
  | _, 0, cs => ([], false, cs)
  | i, remaining + 1, cs =>
    let tryV4 : Option ((Nat × Nat × Nat × Nat) × List Char) :=
      if i + 1 < limit then readSep ':' i readIpv4 cs else none
    match tryV4 with
    | some ((a, b, c, d), rest) => ([a * 256 + b, c * 256 + d], true, rest)
    | none =>
      match readSep ':' i (readNumber 16 65536 (some 4) true) cs with
      | some (g, rest) =>
        let (gs, flag, rest2) := readGroupsAux limit (i + 1) remaining rest
        (g :: gs, flag, rest2)
      | none => ([], false, cs)

/-- `read_ipv6_addr`: up to eight groups, or a head, a `::` standing for at
least one zero group, and a tail; an embedded IPv4 part may only end the
address.  Returns the eight 16-bit groups. -/
def readIpv6 (cs : List Char) : Option (List Nat × List Char) :=
  let (head, headIpv4, cs1) := readGroupsAux 8 0 8 cs
  if head.length = 8 then some (head, cs1)
  else if headIpv4 then none
  else
    match readGivenChar ':' cs1 with
    | none => none
    | some cs2 =>
      match readGivenChar ':' cs2 with
      | none => none
      | some cs3 =>
        let limit := 8 - (head.length + 1)
        let (tail, _, cs4) := readGroupsAux limit 0 limit cs3
        let zeros := List.replicate (8 - head.length - tail.length) 0
        some (head ++ zeros ++ tail, cs4)

/-- `read_scope_id`: a `%` followed by a decimal `u32`. -/
def readScopeId (cs : List Char) : Option (Nat × List Char) := do
  let cs1 ← readGivenChar '%' cs
  readNumber 10 4294967296 none true cs1

/-- `read_port`: a `:` followed by a decimal `u16` (leading zeros
allowed). -/
def readPort (cs : List Char) : Option (Nat × List Char) := do
  let cs1 ← readGivenChar ':' cs
  readNumber 10 65536 none true cs1

/-- A parsed socket address. -/
inductive SocketAddr
  | v4 (a b c d : Nat) (port : Nat)
  | v6 (groups : List Nat) (scopeId : Nat) (port : Nat)
deriving DecidableEq, Repr

/-- `read_socket_addr_v4`: an IPv4 address followed by a port. -/
def readSocketAddrV4 (cs : List Char) : Option (SocketAddr × List Char) := do
  let ((a, b, c, d), cs1) ← readIpv4 cs
  let (p, cs2) ← readPort cs1
  return (SocketAddr.v4 a b c d p, cs2)

/-- `read_socket_addr_v6`: a bracketed IPv6 address, an optional scope id,
then a port. -/
def readSocketAddrV6 (cs : List Char) : Option (SocketAddr × List Char) := do
  let cs1 ← readGivenChar '[' cs
  let (gs, cs2) ← readIpv6 cs1
  let (scope, cs3) := match readScopeId cs2 with
    | some (s, r) => (s, r)
    | none => (0, cs2)
  let cs4 ← readGivenChar ']' cs3
  let (p, cs5) ← readPort cs4
  return (SocketAddr.v6 gs scope p, cs5)

/-- `read_socket_addr`: the IPv4 form first, else the bracketed IPv6
form. -/
def readSocketAddrChars (cs : List Char) : Option (SocketAddr × List Char) :=
  match readSocketAddrV4 cs with
  | some x => some x
  | none => readSocketAddrV6 cs

/-- `"...".parse::<SocketAddr>()`: the whole string must be consumed. -/
def parseSocketAddr (s : String) : Option SocketAddr :=
  match readSocketAddrChars s.data with
  | some (a, []) => some a
  | _ => none

/-!
Model of `Server::run`.  `run` formats `host:port` with its own `format!`
call, parses it with `.parse::<SocketAddr>()` and `.expect("Invalid
address")` — a failed parse panics, halting the process — then builds the
app, binds the listener (`TcpListener::bind(addr).await?` returns the I/O
error to the caller), logs the startup record, and enters the serve loop,
which returns only on an I/O error from the serving mechanism.  The
operating system and network are an oracle (`NetEnv`); the externally
visible steps are recorded as an event trace.
-/

/-- The kind of an `std::io::Error`. -/
inductive IOErrorKind
  | addrInUse
  | permissionDenied
  | other (code : Nat)
deriving DecidableEq, Repr

/-- How a call to `run` ends: a panic (process halt, nothing returned to
the caller), an `Err(io::Error)` returned to the caller, or serving
indefinitely. -/
inductive RunResult
  | panicked (msg : String)
  | ioError (e : IOErrorKind)
  | servesForever
deriving DecidableEq, Repr

/-- Whether `run` ended by returning a recoverable error value to its
caller. -/
def RunResult.isRecoverable : RunResult → Bool
  | RunResult.ioError _ => true
  | _ => false

/-- The externally visible steps of `run`, in order. -/
inductive Event
  | resolved (addr : SocketAddr)
  | appBuilt (app : App)
  | bindAttempt (addr : SocketAddr)
  | bound (addr : SocketAddr)
  | startupLogged (host : String) (port : Nat)
  | accepted
deriving DecidableEq, Repr

/-- The oracle for the operating system: whether binding a given address
fails (and with what error), and whether the serve loop eventually fails
(`none` = serves forever). -/
structure NetEnv where
  bindError : SocketAddr → Option IOErrorKind
  serveError : Option IOErrorKind

/-- The string `run` builds and parses:
`format!` of host, a colon, and the decimal port. -/
def Server.runAddrString (s : Server) : String :=
  s.config.host ++ ":" ++ Nat.repr s.config.port

/-- `Server::run`: parse the address (panicking on failure), build the app,
bind (propagating the I/O error), log startup, serve.  Returns the event
trace and the outcome. -/
def Server.run (s : Server) (env : NetEnv) : List Event × RunResult :=
  match parseSocketAddr s.runAddrString with
  | none => ([], RunResult.panicked "Invalid address")
  | some addr =>
    let app := s.build_app
    match env.bindError addr with
    | some e =>
      ([Event.resolved addr, Event.appBuilt app, Event.bindAttempt addr],
        RunResult.ioError e)
    | none =>
      let pre := [Event.resolved addr, Event.appBuilt app, Event.bindAttempt addr,
        Event.bound addr, Event.startupLogged s.config.host s.config.port,
        Event.accepted]
      match env.serveError with
      | some e => (pre, RunResult.ioError e)
      | none => (pre, RunResult.servesForever)

/-- A network oracle on which every bind succeeds and the serve loop never
fails. -/
def envOk : NetEnv :=
  { bindError := fun _ => none, serveError := none }

/-- A network oracle on which every bind fails with `AddrInUse`. -/
def envBindFail : NetEnv :=
  { bindError := fun _ => some IOErrorKind.addrInUse, serveError := none }

/-!
Helper lemmas shared by the claim theorems.
-/

/-- A string beginning with a colon is never a socket address: the IPv4
form must begin with a digit and the IPv6 form with an opening bracket. -/
theorem readSocketAddrChars_colon (cs : List Char) :
    readSocketAddrChars (':' :: cs) = none := rfl

/-!
The claim theorems.
-/

/-- C1: the pipeline returned by `build_app` has the router (made from a
duplicate of the shared state handle) innermost, then, moving outward, the
logging layer, the request-id layer, the trace layer, and, when
`cors_enabled`, the cors layer outermost; requests traverse the attached
layers outermost-to-innermost before reaching the router. -/
theorem build_app_layer_order (s : Server) :
    s.build_app.outermostToInnermost =
      (if s.config.cors_enabled then [Layer.cors permissiveCors] else []) ++
        [Layer.trace, Layer.requestId, Layer.logging] ∧
    s.build_app.routerState = AppState.clone s.state := by
  cases hc : s.config.cors_enabled <;>
    simp [Server.build_app, App.outermostToInnermost, App.layer, create_router,
      AppState.clone, hc, permissiveCors, CorsPolicy.new, CorsPolicy.allow_origin,
      CorsPolicy.allow_methods, CorsPolicy.allow_headers]

/-- C2: the built pipeline carries a permissive cors layer (any origin, any
method, any header) exactly when `cors_enabled` is true, it is the
outermost layer when present, and when `cors_enabled` is false no cors
layer of any policy is present. -/
theorem cors_layer_iff (s : Server) :
    (Layer.cors permissiveCors ∈ s.build_app.layers ↔ s.config.cors_enabled = true) ∧
    (s.config.cors_enabled = true →
      s.build_app.outermostToInnermost.head? = some (Layer.cors permissiveCors)) ∧
    (s.config.cors_enabled = false →
      ∀ p : CorsPolicy, Layer.cors p ∉ s.build_app.layers) := by
  cases hc : s.config.cors_enabled <;>
    simp [Server.build_app, App.outermostToInnermost, App.layer, create_router,
      AppState.clone, hc, permissiveCors, CorsPolicy.new, CorsPolicy.allow_origin,
      CorsPolicy.allow_methods, CorsPolicy.allow_headers]

/-- C2 witness: with cors enabled the permissive layer is present, with it
disabled it is absent. -/
theorem cors_layer_iff_witness :
    Layer.cors permissiveCors ∈
      (Server.new ⟨0⟩ ⟨"127.0.0.1", 8080, true⟩).build_app.layers ∧
    Layer.cors permissiveCors ∉
      (Server.new ⟨0⟩ ⟨"127.0.0.1", 8080, false⟩).build_app.layers :=
  ⟨(cors_layer_iff (Server.new ⟨0⟩ ⟨"127.0.0.1", 8080, true⟩)).1.mpr rfl,
    (cors_layer_iff (Server.new ⟨0⟩ ⟨"127.0.0.1", 8080, false⟩)).2.2 rfl permissiveCors⟩

/-- C3 counterexample: with an empty host the address fails to parse and
`run` panics (halting the process); it does not return a recoverable error
value to its caller. -/
theorem run_invalid_address_counterexample :
    ((Server.new ⟨0⟩ ⟨"", 8080, true⟩).run envOk).2 =
      RunResult.panicked "Invalid address" ∧
    RunResult.isRecoverable ((Server.new ⟨0⟩ ⟨"", 8080, true⟩).run envOk).2 = false :=
  ⟨rfl, rfl⟩

/-- C3 (amended): when the host-port literal cannot be parsed into a socket
address, `run` halts by panicking with the message `Invalid address` before
any socket is bound — the trace is empty, so nothing was bound — rather
than proceeding; no recoverable error value reaches the caller. -/
theorem run_invalid_address_panics (s : Server) (env : NetEnv)
    (h : parseSocketAddr s.runAddrString = none) :
    s.run env = ([], RunResult.panicked "Invalid address") := by
  simp [Server.run, h]

/-- C3 witness: the amended behavior at the empty host. -/
theorem run_invalid_address_panics_witness :
    (Server.new ⟨0⟩ ⟨"", 8080, true⟩).run envOk =
      ([], RunResult.panicked "Invalid address") :=
  run_invalid_address_panics (Server.new ⟨0⟩ ⟨"", 8080, true⟩) envOk rfl

/-- C4: `build_app` is a pure function of the stored config and state: it
is total (modelled as a Lean function, so it performs no I/O and cannot
fail), it leaves the Server's fields unchanged and usable, two calls on the
same Server agree, the router inside the result holds the server's state
handle, and any Server with equal state and cors flag builds the identical
pipeline (host and port do not enter). -/
theorem build_app_pure (st : AppState) (cfg : ServerConfig) :
    (Server.new st cfg).build_app = (Server.new st cfg).build_app ∧
    (Server.new st cfg).config = cfg ∧
    (Server.new st cfg).state = st ∧
    (Server.new st cfg).build_app.routerState = st ∧
    (∀ t : Server, t.state = st → t.config.cors_enabled = cfg.cors_enabled →
      t.build_app = (Server.new st cfg).build_app) := by
  refine ⟨rfl, rfl, rfl, ?_, ?_⟩
  · cases hc : cfg.cors_enabled <;>
      simp [Server.build_app, Server.new, App.layer, create_router, AppState.clone, hc]
  · intro t h1 h2
    cases hc : cfg.cors_enabled <;>
      simp [Server.build_app, Server.new, App.layer, create_router, AppState.clone,
        h1, h2, hc]

/-- C4 witness: two Servers sharing state and cors flag but differing in
host and port build the identical pipeline. -/
theorem build_app_pure_witness :
    (Server.new ⟨0⟩ ⟨"example.com", 1, true⟩).build_app =
      (Server.new ⟨0⟩ ⟨"127.0.0.1", 8080, true⟩).build_app :=
  (build_app_pure ⟨0⟩ ⟨"127.0.0.1", 8080, true⟩).2.2.2.2
    (Server.new ⟨0⟩ ⟨"example.com", 1, true⟩) rfl rfl

/-- C5 counterexample: a hostname (`localhost`) and a bare IPv6 literal
(`::1`) are hosts in the forms the claim admits, yet `run` resolves
nothing and never proceeds to binding: the trace is empty and the run
panics. -/
theorem run_host_forms_counterexample :
    (Server.new ⟨0⟩ ⟨"localhost", 8080, true⟩).run envOk =
      ([], RunResult.panicked "Invalid address") ∧
    (Server.new ⟨0⟩ ⟨"::1", 8080, true⟩).run envOk =
      ([], RunResult.panicked "Invalid address") :=
  ⟨rfl, rfl⟩

/-- C5 (amended): whenever the `host:port` string parses as a socket
address literal — which holds for IPv4 dotted-quad hosts including the
wildcard `0.0.0.0` and for bracketed IPv6 hosts, but not for hostnames or
bare IPv6 literals — `run`'s first step resolves it to a single concrete
socket address and execution proceeds to binding. -/
theorem run_resolves_then_binds (s : Server) (env : NetEnv) (a : SocketAddr)
    (h : parseSocketAddr s.runAddrString = some a) :
    Event.resolved a ∈ (s.run env).1 ∧ Event.bindAttempt a ∈ (s.run env).1 := by
  cases hb : env.bindError a <;> cases hs : env.serveError <;>
    simp [Server.run, h, hb, hs]

/-- C5 witness: the default `127.0.0.1:8080` resolves and binding is
attempted. -/
theorem run_resolves_then_binds_witness :
    Event.resolved (SocketAddr.v4 127 0 0 1 8080) ∈
      ((Server.with_defaults ⟨0⟩).run envOk).1 ∧
    Event.bindAttempt (SocketAddr.v4 127 0 0 1 8080) ∈
      ((Server.with_defaults ⟨0⟩).run envOk).1 :=
  run_resolves_then_binds (Server.with_defaults ⟨0⟩) envOk
    (SocketAddr.v4 127 0 0 1 8080) rfl

/-- C6: when binding the resolved address fails, `run` returns exactly that
failure to the caller as an I/O error; binding is attempted exactly once
(no retry), and the run stops before the socket is bound, before startup is
logged and before any connection is accepted. -/
theorem run_bind_failure (s : Server) (env : NetEnv) (a : SocketAddr)
    (e : IOErrorKind) (h : parseSocketAddr s.runAddrString = some a)
    (hb : env.bindError a = some e) :
    (s.run env).2 = RunResult.ioError e ∧
    (s.run env).1 =
      [Event.resolved a, Event.appBuilt s.build_app, Event.bindAttempt a] ∧
    Event.bound a ∉ (s.run env).1 ∧
    Event.accepted ∉ (s.run env).1 ∧
    (s.run env).1.count (Event.bindAttempt a) = 1 := by
  simp [Server.run, h, hb, List.count_cons]

/-- C6 witness: binding `127.0.0.1:8080` on a system where the address is
in use makes `run` return that I/O error. -/
theorem run_bind_failure_witness :
    ((Server.with_defaults ⟨0⟩).run envBindFail).2 =
      RunResult.ioError IOErrorKind.addrInUse :=
  (run_bind_failure (Server.with_defaults ⟨0⟩) envBindFail
    (SocketAddr.v4 127 0 0 1 8080) IOErrorKind.addrInUse rfl rfl).1

/-- C7: the default configuration is exactly host `127.0.0.1`, port `8080`,
cors enabled. -/
theorem server_config_default_values :
    ServerConfig.default.host = "127.0.0.1" ∧
    ServerConfig.default.port = 8080 ∧
    ServerConfig.default.cors_enabled = true :=
  ⟨rfl, rfl, rfl⟩

/-- C8: `address` returns the literal concatenation of the host, a colon,
and the decimal rendering of the port; it is a pure function, so two calls
on the same Server yield identical output. -/
theorem address_format (s : Server) :
    s.address = s.config.host ++ ":" ++ Nat.repr s.config.port ∧
    s.address = s.address :=
  ⟨rfl, rfl⟩

/-- C9: `Server.new` stores the supplied state and config unchanged —
reading the fields back yields exactly the supplied values, including for
the four required host-port-cors combinations. -/
theorem new_preserves_fields (st : AppState) (host : String) (port : Nat)
    (ce : Bool) :
    (Server.new st ⟨host, port, ce⟩).config.host = host ∧
    (Server.new st ⟨host, port, ce⟩).config.port = port ∧
    (Server.new st ⟨host, port, ce⟩).config.cors_enabled = ce ∧
    (Server.new st ⟨host, port, ce⟩).state = st ∧
    (Server.new st ⟨"0.0.0.0", 3000, false⟩).config = ⟨"0.0.0.0", 3000, false⟩ ∧
    (Server.new st ⟨"192.168.1.100", 443, true⟩).config = ⟨"192.168.1.100", 443, true⟩ ∧
    (Server.new st ⟨"::1", 8080, false⟩).config = ⟨"::1", 8080, false⟩ ∧
    (Server.new st ⟨"0.0.0.0", 80, true⟩).config = ⟨"0.0.0.0", 80, true⟩ :=
  ⟨rfl, rfl, rfl, rfl, rfl, rfl, rfl, rfl⟩

/-- C10: the string `run` parses is exactly the string `address` returns;
resolution succeeds (equivalently, `run` does not panic with `Invalid
address`) precisely when that unbracketed `host:port` string parses as a
socket address; and a bare IPv6 host literal `::1` never resolves, at any
port. -/
theorem run_parses_address_string (s : Server) (env : NetEnv) :
    s.runAddrString = s.address ∧
    ((s.run env).2 ≠ RunResult.panicked "Invalid address" ↔
      (parseSocketAddr s.address).isSome = true) ∧
    (s.config.host = "::1" →
      (s.run env).2 = RunResult.panicked "Invalid address") := by
  have hra : s.runAddrString = s.address := rfl
  refine ⟨rfl, ?_, ?_⟩
  · cases h : parseSocketAddr s.address with
    | none => simp [Server.run, hra, h]
    | some a =>
      cases hb : env.bindError a with
      | some e => simp [Server.run, hra, h, hb]
      | none => cases hs : env.serveError <;> simp [Server.run, hra, h, hb, hs]
  · intro hh
    have h1 : ("::1" : String).data = [':', ':', '1'] := rfl
    have h2 : (":" : String).data = [':'] := rfl
    have hdata : (s.runAddrString).data =
        ':' :: ':' :: '1' :: ':' :: (Nat.repr s.config.port).data := by
      simp [Server.runAddrString, hh, String.data_append, h1, h2]
    have hnone : parseSocketAddr s.runAddrString = none := by
      unfold parseSocketAddr
      rw [hdata, readSocketAddrChars_colon]
    simp [Server.run, hnone]

/-- C10 witness: with host `::1` (port 9000) `run` panics with `Invalid
address`. -/
theorem run_parses_address_string_witness :
    ((Server.new ⟨0⟩ ⟨"::1", 9000, true⟩).run envOk).2 =
      RunResult.panicked "Invalid address" :=
  (run_parses_address_string (Server.new ⟨0⟩ ⟨"::1", 9000, true⟩) envOk).2.2 rfl
